import Mathlib

/-
Verification of the core numeric pipeline of generar_mapas_sismo.py:
distance-to-epicenter computation, the piecewise attenuation model,
residual classification, marker sizing, color/layer bucketing, the
legend composer and the error flow of the main pipeline.

Real-valued numpy computations are embedded elementwise over ℝ (the
numpy vectorized calls act independently on each report row).  Machine
floating point is not modelled: arithmetic is exact real arithmetic.
-/

namespace MapaSismo

/-- Model of numpy.log10 over the reals. -/
noncomputable def log10 (x : ℝ) : ℝ := Real.logb 10 x

/-- Embedding of imm_teorica_por_tramos (src lines 56-71), elementwise on
one report row.  R_safe models numpy.where(R_km > 0, R_km, 1e-6); the
piecewise choice tramo1 models imm_obs <= 4.22; val1 and val2 are the two
regression lines; numpy.floor becomes Int.floor and numpy.clip(_, 1, None)
followed by astype(int) becomes max 1 over ℤ. -/
noncomputable def imm_teorica_por_tramos (R_km : ℝ) (M : ℝ) (imm_obs : ℝ) : ℤ :=
  let R_safe : ℝ := if R_km > 0 then R_km else 1e-6
  let val1 : ℝ := 3.598 - 0.004805 * R_safe - 0.53 * log10 R_safe + 0.295 * M
  let val2 : ℝ := 4.002 - 0.011470 * R_safe - 2.68 * log10 R_safe + 0.940 * M
  let imm_t : ℝ := if imm_obs ≤ 4.22 then val1 else val2
  max 1 ⌊imm_t⌋

/-- Embedding of calcular_distancias (src lines 52-54), elementwise on one
report row: Euclidean distance in degree space scaled by 110 km/degree. -/
noncomputable def calcular_distancias (lat lon lat_sis lon_sis : ℝ) : ℝ :=
  Real.sqrt ((lat - lat_sis) ^ 2 + (lon - lon_sis) ^ 2) * 110.0

/-- C1: the predicted intensity is the floor of formula A
(3.598 − 0.004805·R_safe − 0.53·log10 R_safe + 0.295·M) when the observed
intensity is ≤ 4.22 and of formula B
(4.002 − 0.011470·R_safe − 2.68·log10 R_safe + 0.940·M) otherwise, with
R_safe = R when R > 0 and 1e-6 otherwise, clamped below at 1 with no upper
clamp; the if-condition selecting the formula mentions only the observed
intensity, never the distance. -/
theorem c1_imm_teorica_formula (R M obs : ℝ) :
    imm_teorica_por_tramos R M obs =
      max 1
        ⌊(if obs ≤ 4.22 then
            3.598 - 0.004805 * (if R > 0 then R else 1e-6)
              - 0.53 * log10 (if R > 0 then R else 1e-6) + 0.295 * M
          else
            4.002 - 0.011470 * (if R > 0 then R else 1e-6)
              - 2.68 * log10 (if R > 0 then R else 1e-6) + 0.940 * M)⌋ := by
  unfold imm_teorica_por_tramos
  split <;> rfl

/-- C2: for every distance, magnitude and observed intensity the predicted
intensity is at least 1 (the final clamp), in particular also for very
large R and very negative M. -/
theorem c2_imm_teorica_ge_one (R M obs : ℝ) :
    1 ≤ imm_teorica_por_tramos R M obs := by
  unfold imm_teorica_por_tramos
  exact le_max_left _ _

/-- C4: the distance function vanishes on equal points, is symmetric in the
two coordinate pairs, is non-negative, and equals the Euclidean distance in
degree space scaled by the constant 110 km/degree. -/
theorem c4_distancia_propiedades (lat lon lat_s lon_s : ℝ) :
    calcular_distancias lat lon lat lon = 0 ∧
    calcular_distancias lat lon lat_s lon_s = calcular_distancias lat_s lon_s lat lon ∧
    0 ≤ calcular_distancias lat lon lat_s lon_s ∧
    calcular_distancias lat lon lat_s lon_s =
      Real.sqrt ((lat - lat_s) ^ 2 + (lon - lon_s) ^ 2) * 110 := by
  refine ⟨?_, ?_, ?_, ?_⟩
  · simp [calcular_distancias]
  · unfold calcular_distancias
    rw [show (lat - lat_s) ^ 2 = (lat_s - lat) ^ 2 by ring,
        show (lon - lon_s) ^ 2 = (lon_s - lon) ^ 2 by ring]
  · exact mul_nonneg (Real.sqrt_nonneg _) (by norm_num)
  · norm_num [calcular_distancias]

/-- Threshold-4 variant of the attenuation model for integer observed
intensities, written from the claim C9 to be compared with the source
model: identical except that the piecewise test is imm_obs ≤ 4 over ℤ. -/
noncomputable def imm_teorica_umbral_cuatro (R_km : ℝ) (M : ℝ) (imm_obs : ℤ) : ℤ :=
  let R_safe : ℝ := if R_km > 0 then R_km else 1e-6
  let val1 : ℝ := 3.598 - 0.004805 * R_safe - 0.53 * log10 R_safe + 0.295 * M
  let val2 : ℝ := 4.002 - 0.011470 * R_safe - 2.68 * log10 R_safe + 0.940 * M
  let imm_t : ℝ := if imm_obs ≤ 4 then val1 else val2
  max 1 ⌊imm_t⌋

/-- C9: on integer observed intensities the 4.22 threshold is equivalent to
the integer threshold 4: formula A is selected exactly when the observed
intensity is ≤ 4, and the model with threshold 4.22 agrees with the model
with threshold 4 on every integer observation. -/
theorem c9_umbral_entero (R M : ℝ) (obs : ℤ) :
    imm_teorica_por_tramos R M (obs : ℝ) = imm_teorica_umbral_cuatro R M obs ∧
    ((obs : ℝ) ≤ 4.22 ↔ obs ≤ 4) := by
  have hiff : (obs : ℝ) ≤ 4.22 ↔ obs ≤ 4 := by
    constructor
    · intro h
      have h5 : (obs : ℝ) < 5 := lt_of_le_of_lt h (by norm_num)
      have : obs < 5 := by exact_mod_cast h5
      omega
    · intro h
      have : (obs : ℝ) ≤ 4 := by exact_mod_cast h
      linarith
  refine ⟨?_, hiff⟩
  simp only [imm_teorica_por_tramos, imm_teorica_umbral_cuatro]
  rcases hiff with ⟨h1, h2⟩
  by_cases h : obs ≤ 4
  · rw [if_pos (h2 h), if_pos h]
  · rw [if_neg (fun hc => h (h1 hc)), if_neg h]

/-- Embedding of the residual computation (src line 269), elementwise on one
report row: Diferencia = abs(intensity - IMM_t), kept as an integer. -/
def diferencia_absoluta (intensity IMM_t : ℤ) : ℤ := |intensity - IMM_t|

/-- Residual layer keys of mapa_diferencias (src lines 206-210 and 223). -/
inductive CapaDif where
  | dif0 : CapaDif
  | dif1 : CapaDif
  | difGe2 : CapaDif
deriving DecidableEq, Repr

/-- Embedding of the bucket selection of mapa_diferencias (src line 223):
d == 0 chooses the layer diferencia = 0, d == 1 the layer diferencia = 1,
anything else the layer diferencia ≥ 2. -/
def capa_por_diferencia (d : ℤ) : CapaDif :=
  if d = 0 then CapaDif.dif0 else if d = 1 then CapaDif.dif1 else CapaDif.difGe2

/-- C3: the residual is abs(observed − predicted), hence a non-negative
integer, and its bucket is exactly: 0 to the zero layer, 1 to the one
layer, and ≥ 2 to the two-or-more layer; the classification is a total
function of the residual with no other logic. -/
theorem c3_diferencia_clasificacion (obs imm_t : ℤ) :
    diferencia_absoluta obs imm_t = |obs - imm_t| ∧
    0 ≤ diferencia_absoluta obs imm_t ∧
    (capa_por_diferencia (diferencia_absoluta obs imm_t) = CapaDif.dif0 ↔
      diferencia_absoluta obs imm_t = 0) ∧
    (capa_por_diferencia (diferencia_absoluta obs imm_t) = CapaDif.dif1 ↔
      diferencia_absoluta obs imm_t = 1) ∧
    (capa_por_diferencia (diferencia_absoluta obs imm_t) = CapaDif.difGe2 ↔
      2 ≤ diferencia_absoluta obs imm_t) := by
  have hnn : 0 ≤ diferencia_absoluta obs imm_t := abs_nonneg _
  refine ⟨rfl, hnn, ?_, ?_, ?_⟩ <;>
    · unfold capa_por_diferencia
      split_ifs with h0 h1 <;> simp_all <;> omega

/-- Embedding of the marker size of mapa_intensidades (src line 171):
int(2 * (3 + max(0, min(5, int(r.intensity) - 3)))). -/
def size_marcador_intensidades (intensity : ℤ) : ℤ :=
  2 * (3 + max 0 (min 5 (intensity - 3)))

/-- Embedding of the marker size of mapa_diferencias (src line 224):
int(2 * (3 + max(0, min(5, int(r.intensity) - 3)))). -/
def size_marcador_diferencias (intensity : ℤ) : ℤ :=
  2 * (3 + max 0 (min 5 (intensity - 3)))

/-- C5: both layer builders compute the same marker size from the observed
intensity, the size equals 6 + 2·max(0, min(5, i − 3)), it is monotonically
non-decreasing in the observed intensity, and it saturates at 16 for every
intensity ≥ 8. -/
theorem c5_size_marcador (i j k : ℤ) (hij : i ≤ j) (h8 : 8 ≤ k) :
    size_marcador_intensidades i = size_marcador_diferencias i ∧
    size_marcador_intensidades i = 6 + 2 * max 0 (min 5 (i - 3)) ∧
    size_marcador_intensidades i ≤ size_marcador_intensidades j ∧
    size_marcador_diferencias k = 16 := by
  unfold size_marcador_intensidades size_marcador_diferencias
  refine ⟨rfl, by ring, ?_, ?_⟩ <;> omega

/-- C5 witness at the concrete intensities 2, 5 and 9. -/
theorem c5_size_marcador_witness :
    (2 : ℤ) ≤ 5 ∧ (8 : ℤ) ≤ 9 ∧
    (size_marcador_intensidades 2 = size_marcador_diferencias 2 ∧
     size_marcador_intensidades 2 = 6 + 2 * max 0 (min 5 ((2 : ℤ) - 3)) ∧
     size_marcador_intensidades 2 ≤ size_marcador_intensidades 5 ∧
     size_marcador_diferencias 9 = 16) :=
  ⟨by decide, by decide, c5_size_marcador 2 5 9 (by decide) (by decide)⟩

/-- Embedding of the constant COLOR_MAP (src lines 76-79) as a finite
lookup: defined keys 1..10, absent keys give none. -/
def COLOR_MAP (k : ℤ) : Option String :=
  if k = 1 then some "#0000A6" else if k = 2 then some "#49FE03"
  else if k = 3 then some "#FFFF01" else if k = 4 then some "#FFC800"
  else if k = 5 then some "#FFDE01" else if k = 6 then some "#FFBD01"
  else if k = 7 then some "#FF9C01" else if k = 8 then some "#FF7C01"
  else if k = 9 then some "#C73E10" else if k = 10 then some "#90001F"
  else none

/-- Embedding of the constant CAPA_INTENSIDAD (src lines 83-86) as a finite
lookup: defined keys 1..10, absent keys give none. -/
def CAPA_INTENSIDAD (k : ℤ) : Option String :=
  if k = 1 then some "No sentido" else if k = 2 then some "Muy débil"
  else if k = 3 then some "Leve" else if k = 4 then some "Moderado"
  else if k = 5 then some "Poco fuerte" else if k = 6 then some "Fuerte"
  else if k = 7 then some "Muy fuerte" else if k = 8 then some "Destructivo"
  else if k = 9 then some "Muy destructivo" else if k = 10 then some "Desastroso"
  else none

/-- Embedding of color_por_intensidad (src lines 88-90): the argument is
clamped into 1..10 before indexing COLOR_MAP. -/
def color_por_intensidad (i : ℤ) : Option String :=
  COLOR_MAP (max 1 (min 10 i))

/-- Embedding of the intensity bucket of mapa_intensidades (src line 170):
k = max(1, min(10, int(r.intensity))). -/
def bucket_intensidad (i : ℤ) : ℤ := max 1 (min 10 i)

/-- Defined keys of COLOR_MAP cover exactly 1..10. -/
theorem color_map_defined (k : ℤ) (h1 : 1 ≤ k) (h2 : k ≤ 10) :
    (COLOR_MAP k).isSome = true := by
  interval_cases k <;> rfl

/-- Defined keys of CAPA_INTENSIDAD cover exactly 1..10. -/
theorem capa_intensidad_defined (k : ℤ) (h1 : 1 ≤ k) (h2 : k ≤ 10) :
    (CAPA_INTENSIDAD k).isSome = true := by
  interval_cases k <;> rfl

/-- C10: for every integer observed intensity, also outside 1..10, the
clamped bucket lies in 1..10, the color lookup and the layer lookup both
succeed on the clamped value, and the marker size lies between 6 and 16. -/
theorem c10_capa_intensidad_total (i : ℤ) :
    1 ≤ bucket_intensidad i ∧ bucket_intensidad i ≤ 10 ∧
    bucket_intensidad i = max 1 (min 10 i) ∧
    (color_por_intensidad i).isSome = true ∧
    (CAPA_INTENSIDAD (bucket_intensidad i)).isSome = true ∧
    6 ≤ size_marcador_intensidades i ∧ size_marcador_intensidades i ≤ 16 := by
  have h1 : 1 ≤ bucket_intensidad i := le_max_left _ _
  have h2 : bucket_intensidad i ≤ 10 := by
    unfold bucket_intensidad
    omega
  refine ⟨h1, h2, rfl, ?_, capa_intensidad_defined _ h1 h2, ?_, ?_⟩
  · exact color_map_defined _ h1 h2
  · unfold size_marcador_intensidades
    omega
  · unfold size_marcador_intensidades
    omega

/-- Embedding of color_por_diferencia (src lines 212-219): green for 0,
orange for 1, red otherwise. -/
def color_por_diferencia (d : ℤ) : String :=
  if d = 0 then "#00A600" else if d = 1 then "#FF9A00" else "#C00000"

/-- One row of the enriched dataframe as consumed by mapa_diferencias
(src line 221): lat, lon, intensity from the reports plus the derived
columns IMM_t and Diferencia.  Diferencia is Option to express the
r.Diferencia is None test of src line 222. -/
structure FilaDif where
  lat : ℚ
  lon : ℚ
  intensity : ℤ
  IMM_t : ℤ
  Diferencia : Option ℤ
deriving DecidableEq, Repr

/-- Marker specification produced per row by mapa_diferencias: layer key,
size, fill color, position and tooltip text. -/
structure Marcador where
  capa : String
  size : ℤ
  fill : String
  lat : ℚ
  lon : ℚ
  tooltip : String
deriving DecidableEq, Repr

/-- Embedding of the per-row body of mapa_diferencias (src lines 221-231):
d = int(r.Diferencia) if r.Diferencia is not None else 0, the layer key
picked from d, the marker size from the observed intensity, the fill from
color_por_diferencia, and the tooltip text. -/
def marcador_diferencia (r : FilaDif) : Marcador :=
  let d : ℤ := match r.Diferencia with
    | some v => v
    | none => 0
  let capa : String := if d = 0 then "dif = 0" else if d = 1 then "dif = 1" else "dif ≥ 2"
  { capa := capa
    size := size_marcador_diferencias r.intensity
    fill := color_por_diferencia d
    lat := r.lat
    lon := r.lon
    tooltip := "IMM_o = " ++ toString r.intensity ++ " | IMM_t = " ++
      toString r.IMM_t ++ " | dif = " ++ toString d }

/-- C8: a row whose Diferencia field is None is coerced to residual 0 and
produces exactly the marker that the same row with Diferencia = 0 produces,
in the diferencia = 0 layer with the green fill; the builder is a total
function, so no row can make it fail. -/
theorem c8_diferencia_none_es_cero (r : FilaDif) (h : r.Diferencia = none) :
    marcador_diferencia r = marcador_diferencia { r with Diferencia := some 0 } ∧
    (marcador_diferencia r).capa = "dif = 0" ∧
    (marcador_diferencia r).fill = "#00A600" := by
  unfold marcador_diferencia color_por_diferencia
  rw [h]
  exact ⟨rfl, rfl, rfl⟩

/-- C8 witness at a concrete row with a missing residual. -/
theorem c8_diferencia_none_witness :
    (FilaDif.mk 14 (-90) 5 4 none).Diferencia = none ∧
    (marcador_diferencia (FilaDif.mk 14 (-90) 5 4 none) =
       marcador_diferencia { FilaDif.mk 14 (-90) 5 4 none with Diferencia := some 0 } ∧
     (marcador_diferencia (FilaDif.mk 14 (-90) 5 4 none)).capa = "dif = 0" ∧
     (marcador_diferencia (FilaDif.mk 14 (-90) 5 4 none)).fill = "#00A600") :=
  ⟨rfl, c8_diferencia_none_es_cero (FilaDif.mk 14 (-90) 5 4 none) rfl⟩

/-- One row of the eventinfo table (src lines 29-40), also the evento dict
used by the legend: eventid, origintime, latitude, longitude, magnitude.
Numeric fields are modelled as rationals so the record stays computable. -/
structure FilaEvento where
  eventid : String
  origintime : String
  latitude : ℚ
  longitude : ℚ
  magnitude : ℚ
deriving DecidableEq, Repr

/-- One raw row of the intensityreports table (src lines 44-48): userid,
lat, lon, intensity, with eventid for the WHERE clause; lat and lon are
Option to express the IS NOT NULL filter. -/
structure FilaReporte where
  eventid : String
  userid : String
  lat : Option ℚ
  lon : Option ℚ
  intensity : ℤ
deriving DecidableEq, Repr

/-- In-memory model of the SQLite store: the eventinfo rows in table order
and the intensityreports rows. -/
structure Store where
  eventinfo : List FilaEvento
  intensityreports : List FilaReporte
deriving DecidableEq, Repr

/-- Error conditions raised by the pipeline: noEncontrado models the
ValueError of leer_evento (src line 39), sinReportes the ValueError of main
on an empty report set (src line 262). -/
inductive ErrorPrograma where
  | noEncontrado : ErrorPrograma
  | sinReportes : ErrorPrograma
deriving DecidableEq, Repr

/-- Embedding of leer_evento (src lines 26-40): with no explicit id the
first eventinfo row (LIMIT 1), otherwise the row whose eventid matches;
a missing row raises, modelled as Except.error noEncontrado. -/
def leer_evento (s : Store) (event_id : Option String) : Except ErrorPrograma FilaEvento :=
  match event_id with
  | none =>
    match s.eventinfo.head? with
    | some row => Except.ok row
    | none => Except.error ErrorPrograma.noEncontrado
  | some id =>
    match s.eventinfo.find? (fun row => row.eventid == id) with
    | some row => Except.ok row
    | none => Except.error ErrorPrograma.noEncontrado

/-- Embedding of leer_reportes (src lines 42-49): the report rows of the
event whose lat and lon are both non-null. -/
def leer_reportes (s : Store) (event_id : String) : List FilaReporte :=
  s.intensityreports.filter
    (fun r => r.eventid == event_id && r.lat.isSome && r.lon.isSome)

/-- Embedding of the control flow of main (src lines 257-283): look the
event up, abort with noEncontrado when absent; load the reports, abort
with sinReportes when empty; otherwise the two output artifacts are
written, named [pre_]mapa_<eventid>.html and
[pre_]mapa_diferencia_<eventid>.html.  The success value lists the
filenames written; an error writes nothing.  The numeric enrichment and
the folium rendering do not influence this flow. -/
def main_run (s : Store) (event_id : Option String) (out_pre : String) :
    Except ErrorPrograma (List String) :=
  match leer_evento s event_id with
  | Except.error e => Except.error e
  | Except.ok evento =>
    let df := leer_reportes s evento.eventid
    if df.isEmpty then Except.error ErrorPrograma.sinReportes
    else
      let p := if out_pre = "" then "" else out_pre ++ "_"
      Except.ok [p ++ "mapa_" ++ evento.eventid ++ ".html",
                 p ++ "mapa_diferencia_" ++ evento.eventid ++ ".html"]

/-- C6: when the event lookup fails the pipeline aborts with the
noEncontrado (NotFound) error and produces no output artifact; when the
lookup succeeds but the event has no report with non-null coordinates the
pipeline aborts with the sinReportes (EmptyDataset) error and produces no
output artifact. -/
theorem c6_fallos_abortan (s : Store) (eid : Option String) (op : String) :
    (leer_evento s eid = Except.error ErrorPrograma.noEncontrado →
      main_run s eid op = Except.error ErrorPrograma.noEncontrado) ∧
    (∀ ev, leer_evento s eid = Except.ok ev →
      leer_reportes s ev.eventid = [] →
      main_run s eid op = Except.error ErrorPrograma.sinReportes) := by
  constructor
  · intro h
    unfold main_run
    rw [h]
  · intro ev hok hempty
    unfold main_run
    rw [hok]
    dsimp only
    rw [hempty]
    rfl

/-- Demo event row used by the C6 witness. -/
def evento_demo : FilaEvento :=
  FilaEvento.mk "insi2025otmk" "2025-02-03T04:05:06Z" (145 / 10) (-905 / 10) 6

/-- Store holding one event and no reports, used by the C6 witness. -/
def store_sin_reportes : Store := Store.mk [evento_demo] []

/-- C6 witness: looking up an absent id aborts with noEncontrado, and the
present event with an empty report set aborts with sinReportes. -/
theorem c6_fallos_abortan_witness :
    (leer_evento store_sin_reportes (some "zzz") =
       Except.error ErrorPrograma.noEncontrado ∧
     main_run store_sin_reportes (some "zzz") "" =
       Except.error ErrorPrograma.noEncontrado) ∧
    (leer_evento store_sin_reportes none = Except.ok evento_demo ∧
     leer_reportes store_sin_reportes evento_demo.eventid = [] ∧
     main_run store_sin_reportes none "demo" =
       Except.error ErrorPrograma.sinReportes) :=
  ⟨⟨rfl, (c6_fallos_abortan store_sin_reportes (some "zzz") "").1 rfl⟩,
   ⟨rfl, rfl,
    (c6_fallos_abortan store_sin_reportes none "demo").2 evento_demo rfl rfl⟩⟩

/-- Model of the Python expression origintime.replace("Z", "+00:00")
(src line 117): every occurrence of the character Z is replaced by the
six characters +00:00. -/
def reemplazar_Z (s : String) : String :=
  String.mk (s.data.flatMap (fun c => if c = 'Z' then "+00:00".data else [c]))

/-- Model of datetime.fromisoformat followed by strftime of the date as
percent-Y, percent-m, percent-d (src line 118) on canonical ISO-8601
timestamps of the shape YYYY-MM-DDTHH:MM:SS plus offset: the first ten
characters after the Z replacement. -/
def fecha_str (origintime : String) : String :=
  String.mk ((reemplazar_Z origintime).data.take 10)

/-- Model of datetime.fromisoformat followed by strftime of the time as
percent-H, percent-M, percent-S (src line 119) on canonical ISO-8601
timestamps of the shape YYYY-MM-DDTHH:MM:SS plus offset: the eight
characters after the date and the T separator. -/
def hora_str (origintime : String) : String :=
  String.mk (((reemplazar_Z origintime).data.drop 11).take 8)

/-- Model of the Python fixed-point format specifiers .6f and .2f over
exact rationals: the value scaled by a power of ten, rounded to the
nearest integer, rendered with a sign, an integer part and a zero-padded
fractional part (the round-half-even tie behaviour of binary floats is
not modelled). -/
def format_fixed (nd : Nat) (x : ℚ) : String :=
  let scaled : ℤ := round (x * (10 : ℚ) ^ nd)
  let signo : String := if scaled < 0 then "-" else ""
  let a : ℕ := scaled.natAbs
  let ent : ℕ := a / 10 ^ nd
  let fr : ℕ := a % 10 ^ nd
  let fs : String := toString fr
  let ceros : String := String.mk (List.replicate (nd - fs.length) '0')
  signo ++ toString ent ++ "." ++ ceros ++ fs

/-- One color/label row of the legend (src lines 121-124). -/
def fila_color (ci : String × String) : String :=
  "<div><span style=\"background:" ++ ci.1 ++ "; width:12px; height:12px; display:inline-block;\"></span> " ++ ci.2 ++ "</div>"

/-- Embedding of leyenda_evento_html (src lines 116-149): the f-string
with the event id, the formatted date and time, the coordinates to six
decimal places, the magnitude to two, the epicenter key and the joined
color rows. -/
def leyenda_evento_html (evento : FilaEvento) (titulo_colores : String)
    (items_colores : List (String × String)) : String :=
  let fecha := fecha_str evento.origintime
  let hora := hora_str evento.origintime
  let colores_html := String.intercalate "\n" (items_colores.map fila_color)
  "\n<div style=\"position: fixed; bottom: 20px; right: 20px; z-index: 9999; background: white; padding: 10px 12px;\n            border: 1px solid #ccc; border-radius: 6px; font-size: 14px; max-width: 320px;\">\n  <h2 style=\"margin: 0 0 6px 0; font-size: 18px;\">Leyenda</h2>\n\n  <div style=\"display:flex; align-items:center; margin: 6px 0 8px 0;\">\n    <span style=\"display:inline-block; width:16px; height:16px; border-radius:50%;\n                 background:#00008B; margin-right:6px;\"></span>\n    <span><b>Epicentro</b></span>\n  </div>\n\n  <div style=\"margin-left:22px; font-size: 13px;\">\n    <div><b>Evento:</b> " ++ evento.eventid ++ "</div>\n    <div><b>Fecha:</b> " ++ fecha ++ "</div>\n    <div><b>Hora (UTC):</b> " ++ hora ++ "</div>\n    <div><b>Latitud:</b> " ++ format_fixed 6 evento.latitude ++ "</div>\n    <div><b>Longitud:</b> " ++ format_fixed 6 evento.longitude ++ "</div>\n    <div><b>Magnitud:</b> " ++ format_fixed 2 evento.magnitude ++ "</div>\n  </div>\n\n  <hr style=\"margin:10px 0;\">\n  <h4 style=\"margin: 0 0 6px 0;\">" ++ titulo_colores ++ "</h4>\n  " ++ colores_html ++ "\n</div>\n"

/-- Characters other than Z are kept unchanged by the replacement. -/
theorem reemplazar_sin_Z (l : List Char) (h : 'Z' ∉ l) :
    (l.flatMap (fun c => if c = 'Z' then "+00:00".data else [c])) = l := by
  induction l with
  | nil => rfl
  | cons c l ih =>
    rw [List.flatMap_cons, if_neg (fun hc : c = 'Z' => h (hc ▸ List.mem_cons_self c l)),
        ih (fun hm => h (List.mem_cons_of_mem c hm))]
    rfl

set_option maxRecDepth 40000 in
/-- C7: the legend is a pure function of the event, the title and the
color rows, equal to a fixed concatenation holding in order: the
Epicentro marker key, the event id, the formatted date, the formatted
time, the latitude and longitude to six decimal places, the magnitude to
two decimal places, the supplied title and the supplied color rows joined
in exactly the given order; moreover on a canonical UTC origin timestamp
date-T-time-Z the formatted date is the date part and the formatted time
is the time part. -/
theorem c7_leyenda_composicion (evento : FilaEvento) (titulo : String)
    (items : List (String × String)) :
    (leyenda_evento_html evento titulo items =
      ("\n<div style=\"position: fixed; bottom: 20px; right: 20px; z-index: 9999; background: white; padding: 10px 12px;\n            border: 1px solid #ccc; border-radius: 6px; font-size: 14px; max-width: 320px;\">\n  <h2 style=\"margin: 0 0 6px 0; font-size: 18px;\">Leyenda</h2>\n\n  <div style=\"display:flex; align-items:center; margin: 6px 0 8px 0;\">\n    <span style=\"display:inline-block; width:16px; height:16px; border-radius:50%;\n                 background:#00008B; margin-right:6px;\"></span>\n    <span><b>" ++
       "Epicentro" ++
       "</b></span>\n  </div>\n\n  <div style=\"margin-left:22px; font-size: 13px;\">\n    <div><b>Evento:</b> ") ++
      evento.eventid ++
      "</div>\n    <div><b>Fecha:</b> " ++
      fecha_str evento.origintime ++
      "</div>\n    <div><b>Hora (UTC):</b> " ++
      hora_str evento.origintime ++
      "</div>\n    <div><b>Latitud:</b> " ++
      format_fixed 6 evento.latitude ++
      "</div>\n    <div><b>Longitud:</b> " ++
      format_fixed 6 evento.longitude ++
      "</div>\n    <div><b>Magnitud:</b> " ++
      format_fixed 2 evento.magnitude ++
      "</div>\n  </div>\n\n  <hr style=\"margin:10px 0;\">\n  <h4 style=\"margin: 0 0 6px 0;\">" ++
      titulo ++
      "</h4>\n  " ++
      String.intercalate "\n" (items.map fila_color) ++
      "\n</div>\n") ∧
    (∀ d t : List Char, d.length = 10 → t.length = 8 → 'Z' ∉ d → 'Z' ∉ t →
      fecha_str (String.mk (d ++ 'T' :: (t ++ ['Z']))) = String.mk d ∧
      hora_str (String.mk (d ++ 'T' :: (t ++ ['Z']))) = String.mk t) := by
  constructor
  · rfl
  · intro d t hd ht hzd hzt
    have hbind :
        ((d ++ 'T' :: (t ++ ['Z'])).flatMap
            (fun c => if c = 'Z' then "+00:00".data else [c])) =
          d ++ 'T' :: (t ++ "+00:00".data) := by
      rw [List.flatMap_append, List.flatMap_cons, List.flatMap_append,
          reemplazar_sin_Z d hzd, reemplazar_sin_Z t hzt]
      rfl
    constructor
    · show String.mk (((d ++ 'T' :: (t ++ ['Z'])).flatMap
          (fun c => if c = 'Z' then "+00:00".data else [c])).take 10) = String.mk d
      rw [hbind, ← hd, List.take_left]
    · show String.mk ((((d ++ 'T' :: (t ++ ['Z'])).flatMap
          (fun c => if c = 'Z' then "+00:00".data else [c])).drop 11).take 8) = String.mk t
      rw [hbind, List.append_cons,
          List.drop_left' (by rw [List.length_append, hd]; rfl),
          List.take_left' ht]

/-- C7 witness on the canonical timestamp 2025-02-03T04:05:06Z. -/
theorem c7_leyenda_composicion_witness :
    ("2025-02-03".data.length = 10 ∧ "04:05:06".data.length = 8 ∧
     'Z' ∉ "2025-02-03".data ∧ 'Z' ∉ "04:05:06".data) ∧
    (fecha_str (String.mk ("2025-02-03".data ++ 'T' :: ("04:05:06".data ++ ['Z']))) =
       String.mk "2025-02-03".data ∧
     hora_str (String.mk ("2025-02-03".data ++ 'T' :: ("04:05:06".data ++ ['Z']))) =
       String.mk "04:05:06".data) :=
  ⟨⟨rfl, rfl, by decide, by decide⟩,
   (c7_leyenda_composicion evento_demo "Intensidad reportada" []).2
     "2025-02-03".data "04:05:06".data rfl rfl (by decide) (by decide)⟩

end MapaSismo
